import Mathlib

/-!
Shallow embedding of the decorator/introspection subsystem of `recipes.py`
(the functions `ordered_dict`, `log_arguments`, `log_on_behalf_of_func` and
the class `ExecutionTimeLogger`), together with theorems settling the
behavioral claims made about it.

Python dictionaries are modelled as insertion-ordered association lists
(`List (α × β)`) whose update follows CPython semantics: assigning to an
existing key keeps its position and replaces its value, assigning to a fresh
key appends it.  Python exceptions are modelled with `Except`; the values a
dynamically typed call passes around are modelled by the inductive `Val`.
A decorated function call is modelled as producing a `CallResult`: the list
of log records emitted (in emission order) plus the outcome of the call.
-/

namespace Recipes

/-- Runtime values passed to / returned from the dynamically typed functions. -/
inductive Val where
  | none
  | int (n : Int)
  | str (s : String)
  deriving DecidableEq, Repr

/-- Python exceptions relevant to the modelled code. -/
inductive PyError where
  | indexError
  | typeError (msg : String)
  | valueError (msg : String)
  | userError (msg : String)
  deriving DecidableEq, Repr

/-- Membership test on an insertion-ordered dictionary (`k in d`). -/
def dictMem {α β : Type} [DecidableEq α] (d : List (α × β)) (k : α) : Bool :=
  d.any (fun p => decide (p.1 = k))

/-- CPython dictionary assignment `d[k] = v`: an existing key keeps its
position and gets the new value, a fresh key is appended at the end. -/
def dictSet {α β : Type} [DecidableEq α] (d : List (α × β)) (k : α) (v : β) :
    List (α × β) :=
  if dictMem d k then d.map (fun p => if p.1 = k then (k, v) else p)
  else d ++ [(k, v)]

/-- CPython `d.update(kvs)`: assign each pair of `kvs` in order. -/
def dictUpdate {α β : Type} [DecidableEq α] (d : List (α × β))
    (kvs : List (α × β)) : List (α × β) :=
  kvs.foldl (fun acc p => dictSet acc p.1 p.2) d

/-- Lookup `d[k]` (first, and only, binding of `k`). -/
def dictGet {α β : Type} [DecidableEq α] (d : List (α × β)) (k : α) : Option β :=
  (d.find? (fun p => decide (p.1 = k))).map Prod.snd

/-- CPython `dict.fromkeys(ks)`: every key mapped to `None`, in order. -/
def dict_fromkeys (ks : List String) : List (String × Val) :=
  ks.foldl (fun acc k => dictSet acc k Val.none) []

/-- The introspectable data of a Python function object, as read by
`log_arguments`: `__module__`, `__name__`, `__code__.co_varnames[:co_argcount]`,
`__defaults__` (or `()`), `__kwdefaults__` (or `None`, modelled as `[]`), and
the function body itself (which may raise). -/
structure PyFunc where
  module : String
  name : String
  argnames : List String
  defaults : List Val
  kwdefaults : List (String × Val)
  body : List Val → List (String × Val) → Except PyError Val

/-- The named substitution values attached to a log record: `log_arguments`
passes the 1-tuple `(arguments,)`, `ExecutionTimeLogger` passes a dict with
the function name and, for the finish record, the elapsed time (a
`timedelta`, modelled as a rational number of seconds). -/
inductive MsgArgs where
  | tuple1 (d : List (String × Val))
  | dictFN (funcName : String)
  | dictFNSecs (funcName : String) (secs : Rat)
  deriving DecidableEq, Repr

/-- The fields of `logging.LogRecord` that `log_on_behalf_of_func` sets. -/
structure LogRecord where
  name : String
  level : Nat
  pathname : String
  lineno : Nat
  msg : String
  msgArgs : MsgArgs
  funcName : String
  deriving DecidableEq, Repr

/-- `logging.DEBUG`. -/
def loggingDEBUG : Nat := 10

/-- Value of `__file__` used as the record's `pathname` argument. -/
def RECIPES_FILE : String := "recipes.py"

/-- `log_on_behalf_of_func`: builds the `logging.LogRecord` handed to the
root logger, stamping the wrapped function's `__module__` as the logger name
and its `__name__` as `funcName`. -/
def log_on_behalf_of_func (func : PyFunc) (level : Nat) (message : String)
    (message_args : MsgArgs) : LogRecord :=
  { name := func.module
    level := level
    pathname := RECIPES_FILE
    lineno := 0
    msg := message
    msgArgs := message_args
    funcName := func.name }

/-- The slice `argnames[len(positional_default_values):]` computed at wrap
time by `log_arguments` (empty when there are no positional defaults). -/
def names_of_positional_w_defaults (f : PyFunc) : List String :=
  if f.defaults.isEmpty then [] else f.argnames.drop f.defaults.length

/-- The wrap-time `default_args_state` dict of `log_arguments`: every declared
positional name seeded with `None`, then `zip(names_of_positional_w_defaults,
positional_default_values)` overlaid, then the keyword-only defaults (when
the `__kwdefaults__` dict is truthy). -/
def default_args_state (f : PyFunc) : List (String × Val) :=
  let s0 := dict_fromkeys f.argnames
  let s1 := dictUpdate s0 ((names_of_positional_w_defaults f).zip f.defaults)
  if f.kwdefaults.isEmpty then s1 else dictUpdate s1 f.kwdefaults

/-- The per-call loop `for pos, value in enumerate(args): arguments[argnames[pos]] = value`,
raising `IndexError` when `pos` runs past the end of `argnames`. -/
def overlay_positional (argnames : List String) :
    List (String × Val) → Nat → List Val → Except PyError (List (String × Val))
  | d, _, [] => .ok d
  | d, pos, v :: rest =>
    match argnames[pos]? with
    | some nm => overlay_positional argnames (dictSet d nm v) (pos + 1) rest
    | none => .error .indexError

/-- The `arguments` dict the wrapper of `log_arguments` builds for one call:
a copy of `default_args_state`, positional arguments overlaid by index, then
`arguments.update(kwargs)`. -/
def reconstruct_arguments (f : PyFunc) (args : List Val)
    (kwargs : List (String × Val)) : Except PyError (List (String × Val)) :=
  match overlay_positional f.argnames (default_args_state f) 0 args with
  | .error e => .error e
  | .ok d => .ok (dictUpdate d kwargs)

instance {ε α : Type} [DecidableEq ε] [DecidableEq α] : DecidableEq (Except ε α)
  | .ok a, .ok b =>
    if h : a = b then isTrue (by rw [h]) else isFalse (fun hc => h (Except.ok.inj hc))
  | .ok _, .error _ => isFalse (fun hc => Except.noConfusion hc)
  | .error _, .ok _ => isFalse (fun hc => Except.noConfusion hc)
  | .error e, .error e2 =>
    if h : e = e2 then isTrue (by rw [h]) else isFalse (fun hc => h (Except.error.inj hc))

/-- One observable call: the log records emitted, in order, and the value
returned or the exception propagated to the caller. -/
structure CallResult where
  logs : List LogRecord
  outcome : Except PyError Val
  deriving DecidableEq, Repr

/-- Message template of the record emitted by the wrapper of `log_arguments`. -/
def CALLED_WITH_MSG : String := "Called with %s"

/-- One call of the `wrapper` closure defined inside `log_arguments`:
reconstruct the argument dict (an `IndexError` there propagates before
anything is logged and before `func` is invoked), emit one DEBUG record via
`log_on_behalf_of_func`, then invoke the wrapped function. -/
def log_arguments_wrapper (f : PyFunc) (args : List Val)
    (kwargs : List (String × Val)) : CallResult :=
  match reconstruct_arguments f args kwargs with
  | .error e => { logs := [], outcome := .error e }
  | .ok arguments =>
      { logs := [log_on_behalf_of_func f loggingDEBUG CALLED_WITH_MSG
                   (.tuple1 arguments)]
        outcome := f.body args kwargs }

/-- A function object as returned by the `log_arguments` decorator: either
the very function object that went in, or the wrapping closure over it. -/
inductive Decorated where
  | original (f : PyFunc)
  | argLogWrapper (f : PyFunc)

/-- `log_arguments` itself; `debug` models the interpreter's `__debug__`
flag (false when Python runs with the optimize flag), in which case the
decorator returns its argument unchanged. -/
def log_arguments (debug : Bool) (f : PyFunc) : Decorated :=
  if !debug then .original f else .argLogWrapper f

/-- Calling the object `log_arguments` returned. -/
def Decorated.call : Decorated → List Val → List (String × Val) → CallResult
  | .original f, args, kwargs => { logs := [], outcome := f.body args kwargs }
  | .argLogWrapper f, args, kwargs => log_arguments_wrapper f args kwargs

/-- Placeholder `{func}` recognized by `ExecutionTimeLogger.__init__`. -/
def OLD_FUNC_PLACEHOLDER : String := "{func}"

/-- Placeholder `{secs}` recognized by `ExecutionTimeLogger.__init__`. -/
def OLD_SECS_PLACEHOLDER : String := "{secs}"

/-- `%`-style replacement for `{func}`. -/
def NEW_FUNC_PLACEHOLDER : String := "%(func)s"

/-- `%`-style replacement for `{secs}`. -/
def NEW_SECS_PLACEHOLDER : String := "%(secs)s"

/-- The `str.format(**old_to_new_placeholders)` normalization performed at
construction time: `{func}` and `{secs}` are rewritten to `%`-style. -/
def normalize_template (s : String) : String :=
  (s.replace OLD_FUNC_PLACEHOLDER NEW_FUNC_PLACEHOLDER).replace
    OLD_SECS_PLACEHOLDER NEW_SECS_PLACEHOLDER

/-- The timing decorator object, holding its two normalized templates. -/
structure ExecutionTimeLogger where
  pre_msg : String
  post_msg : String
  deriving DecidableEq, Repr

/-- Default value of the `pre_msg` parameter of `ExecutionTimeLogger.__init__`. -/
def DEFAULT_PRE_MSG : String := "Started"

/-- Default value of the `post_msg` parameter of `ExecutionTimeLogger.__init__`. -/
def DEFAULT_POST_MSG : String := "Finished, time elapsed: {secs}"

/-- `ExecutionTimeLogger.__init__`: normalize both templates once. -/
def ExecutionTimeLogger.init (pre_msg post_msg : String) : ExecutionTimeLogger :=
  { pre_msg := normalize_template pre_msg
    post_msg := normalize_template post_msg }

/-- One call of the `inner` closure produced by `ExecutionTimeLogger`:
emit the start record, read the clock (`t1`), invoke the wrapped function,
read the clock again (`t2`), emit the finish record carrying the elapsed
`timedelta(seconds = t2 - t1)`.  If the wrapped function raises, the
exception propagates after the start record and before any finish record. -/
def ExecutionTimeLogger.call (self : ExecutionTimeLogger) (level : Nat)
    (f : PyFunc) (t1 t2 : Rat) (args : List Val)
    (kwargs : List (String × Val)) : CallResult :=
  let preRec := log_on_behalf_of_func f level self.pre_msg (.dictFN f.name)
  match f.body args kwargs with
  | .error e => { logs := [preRec], outcome := .error e }
  | .ok v =>
      let exec_time := t2 - t1
      { logs := [preRec,
                 log_on_behalf_of_func f level self.post_msg
                   (.dictFNSecs f.name exec_time)]
        outcome := .ok v }

/-- Error message of `ordered_dict` on an odd trailing-argument count. -/
def ODD_ARGS_MSG : String := "odd number of arguments"

/-- The consecutive pairing performed by the `while True: k, v = next_arg(), next_arg()`
loop of `ordered_dict` (its argument count is even when the loop runs). -/
def pair_up : List Val → List (Val × Val)
  | a :: b :: rest => (a, b) :: pair_up rest
  | _ => []

/-- `ordered_dict(k, v, *args)`: raises `ValueError` when `len(args)` is odd,
otherwise builds an `OrderedDict` by inserting `(k, v)` and then each
consecutive pair of `args` in order. -/
def ordered_dict (k v : Val) (args : List Val) :
    Except PyError (List (Val × Val)) :=
  if args.length % 2 = 1 then .error (.valueError ODD_ARGS_MSG)
  else .ok (dictUpdate (dictSet ([] : List (Val × Val)) k v) (pair_up args))

/-- The scenario function `def greet(name, greeting="Hi")`. -/
def greetFunc : PyFunc :=
  { module := "recipes"
    name := "greet"
    argnames := ["name", "greeting"]
    defaults := [Val.str "Hi"]
    kwdefaults := []
    body := fun _ _ => .ok Val.none }

/-- The scenario function `def add(a, b=2, *, c=3)` (its `co_argcount` is 2,
so `co_varnames[:2]` is `("a", "b")`, and `c` lives in `__kwdefaults__`). -/
def addFunc : PyFunc :=
  { module := "recipes"
    name := "add"
    argnames := ["a", "b"]
    defaults := [Val.int 2]
    kwdefaults := [("c", Val.int 3)]
    body := fun _ _ => .ok Val.none }

/-- The function `def f(a, b, c=3)`: three positional parameters, the last
one with a default. -/
def fABC : PyFunc :=
  { module := "recipes"
    name := "f"
    argnames := ["a", "b", "c"]
    defaults := [Val.int 3]
    kwdefaults := []
    body := fun _ _ => .ok Val.none }

/-- The function `def g(a, *rest): return 42`: one declared positional
parameter (`co_argcount` is 1) plus a var-positional parameter, so the call
`g(1, 2)` itself succeeds. -/
def gStar : PyFunc :=
  { module := "recipes"
    name := "g"
    argnames := ["a"]
    defaults := []
    kwdefaults := []
    body := fun _ _ => .ok (Val.int 42) }

/-- A trivial wrapped function used to instantiate timing scenarios. -/
def sleeperFunc : PyFunc :=
  { module := "recipes"
    name := "sleeper"
    argnames := []
    defaults := []
    kwdefaults := []
    body := fun _ _ => .ok Val.none }

/-! ## Helper lemmas about the dictionary model and the positional overlay -/

theorem dictMem_eq_false {α β : Type} [DecidableEq α] (d : List (α × β)) (k : α)
    (h : k ∉ d.map Prod.fst) : dictMem d k = false := by
  rw [dictMem, List.any_eq_false]
  intro p hp
  simp only [decide_eq_true_eq]
  exact fun hk => h (List.mem_map.2 ⟨p, hp, hk⟩)

theorem dictSet_fresh {α β : Type} [DecidableEq α] (d : List (α × β)) (k : α)
    (v : β) (h : k ∉ d.map Prod.fst) : dictSet d k v = d ++ [(k, v)] := by
  simp [dictSet, dictMem_eq_false d k h]

theorem dictUpdate_fresh {α β : Type} [DecidableEq α] (ps : List (α × β)) :
    ∀ d : List (α × β), (d.map Prod.fst ++ ps.map Prod.fst).Nodup →
      dictUpdate d ps = d ++ ps := by
  induction ps with
  | nil => intro d _; simp [dictUpdate]
  | cons p rest ih =>
    intro d h
    have hfresh : p.1 ∉ d.map Prod.fst := by
      rw [List.nodup_append] at h
      exact fun hc => h.2.2 hc (by simp)
    have hstep : dictUpdate d (p :: rest) = dictUpdate (dictSet d p.1 p.2) rest := rfl
    have hn : ((d ++ [(p.1, p.2)]).map Prod.fst ++ rest.map Prod.fst).Nodup := by
      simpa [List.append_assoc] using h
    rw [hstep, dictSet_fresh d p.1 p.2 hfresh, ih (d ++ [(p.1, p.2)]) hn]
    simp

theorem overlay_positional_overflow (argnames : List String) :
    ∀ (args : List Val) (d : List (String × Val)) (pos : Nat),
      0 < args.length → argnames.length < pos + args.length →
      overlay_positional argnames d pos args = .error .indexError := by
  intro args
  induction args with
  | nil => intro d pos h0 _; simp at h0
  | cons v rest ih =>
    intro d pos _ hlen
    have hstep : overlay_positional argnames d pos (v :: rest) =
        match argnames[pos]? with
        | some nm => overlay_positional argnames (dictSet d nm v) (pos + 1) rest
        | none => .error .indexError := rfl
    by_cases hpos : pos < argnames.length
    · have hget : argnames[pos]? = some argnames[pos] := List.getElem?_eq_getElem hpos
      rw [hstep, hget]
      cases rest with
      | nil => simp at hlen; omega
      | cons w ws =>
        exact ih (dictSet d argnames[pos] v) (pos + 1) (by simp) (by simp at hlen ⊢; omega)
    · have hget : argnames[pos]? = none := List.getElem?_eq_none (by omega)
      rw [hstep, hget]

theorem overlay_positional_ok (argnames : List String) :
    ∀ (args : List Val) (d : List (String × Val)) (pos : Nat),
      pos + args.length ≤ argnames.length →
      ∃ d2, overlay_positional argnames d pos args = .ok d2 := by
  intro args
  induction args with
  | nil => intro d pos _; exact ⟨d, rfl⟩
  | cons v rest ih =>
    intro d pos hlen
    have hpos : pos < argnames.length := by simp at hlen; omega
    have hget : argnames[pos]? = some argnames[pos] := List.getElem?_eq_getElem hpos
    have hstep : overlay_positional argnames d pos (v :: rest) =
        match argnames[pos]? with
        | some nm => overlay_positional argnames (dictSet d nm v) (pos + 1) rest
        | none => .error .indexError := rfl
    rw [hstep, hget]
    exact ih (dictSet d argnames[pos] v) (pos + 1) (by simp at hlen ⊢; omega)

/-! ## Claim theorems -/

/-- C1: the claim says that for `def f(a, b, c=3)` called as `f(1, 2)` the
omitted trailing parameter `c` is mapped to its declared default `3`.  The
code instead zips the defaults against `argnames[len(defaults):]`
(left-aligned after the first `K` names) rather than the last `K` names, so
the default `3` lands on `b` at wrap time, is then overwritten by the
positional overlay, and `c` is logged as `None`.  This evaluation exhibits
the divergence at that input. -/
theorem c1_trailing_default_dropped :
    reconstruct_arguments fABC [Val.int 1, Val.int 2] [] =
      .ok [("a", Val.int 1), ("b", Val.int 2), ("c", Val.none)] ∧
    reconstruct_arguments fABC [Val.int 1, Val.int 2] [] ≠
      .ok [("a", Val.int 1), ("b", Val.int 2), ("c", Val.int 3)] := by
  exact ⟨rfl, by decide⟩

/-- C2: the claim says a declared parameter with no default that the call did
not supply is mapped to `None`.  For `def f(a, b, c=3)` called as `f(1)` the
misaligned defaults zip maps `b` — which has no declared default and was not
supplied — to `3` (the default declared for `c`), not to `None`. -/
theorem c2_no_default_param_not_none :
    reconstruct_arguments fABC [Val.int 1] [] =
      .ok [("a", Val.int 1), ("b", Val.int 3), ("c", Val.none)] ∧
    dictGet [("a", Val.int 1), ("b", Val.int 3), ("c", Val.none)] "b" ≠
      some Val.none := by
  exact ⟨rfl, by decide⟩

/-- C3: for `def add(a, b=2, *, c=3)` wrapped with `log_arguments`, the call
`add(1, c=9)` logs the reconstructed argument mapping
`{a: 1, b: 2, c: 9}`: the supplied keyword value overrides the keyword-only
default of `c`, while the omitted positional default `b = 2` is kept. -/
theorem c3_add_scenario :
    (log_arguments true addFunc).call [Val.int 1] [("c", Val.int 9)] =
      { logs := [log_on_behalf_of_func addFunc loggingDEBUG CALLED_WITH_MSG
                   (.tuple1 [("a", Val.int 1), ("b", Val.int 2), ("c", Val.int 9)])]
        outcome := .ok Val.none } := by
  rfl

/-- C4: for `def greet(name, greeting="Hi")` wrapped with `log_arguments`,
the call `greet("Sam")` logs the reconstructed argument mapping
`{name: "Sam", greeting: "Hi"}`. -/
theorem c4_greet_scenario :
    (log_arguments true greetFunc).call [Val.str "Sam"] [] =
      { logs := [log_on_behalf_of_func greetFunc loggingDEBUG CALLED_WITH_MSG
                   (.tuple1 [("name", Val.str "Sam"), ("greeting", Val.str "Hi")])]
        outcome := .ok Val.none } := by
  rfl

/-- C5 counterexample: the claim asserts transparency for every wrapped
function and every argument list, but for `def g(a, *rest): return 42`
(one declared positional parameter) the call `g(1, 2)` succeeds unwrapped
while the `log_arguments` wrapper raises `IndexError` before invoking `g`,
so the wrapper does not return what the wrapped function returns. -/
theorem c5_transparency_counterexample :
    ((log_arguments true gStar).call [Val.int 1, Val.int 2] []).outcome =
      .error .indexError ∧
    gStar.body [Val.int 1, Val.int 2] [] = .ok (Val.int 42) ∧
    ((log_arguments true gStar).call [Val.int 1, Val.int 2] []).outcome ≠
      gStar.body [Val.int 1, Val.int 2] [] := by
  exact ⟨rfl, rfl, by decide⟩

/-- C5 (amended): the `ExecutionTimeLogger` inner wrapper always returns
exactly what the wrapped function returns and propagates its exception
unchanged; the `log_arguments` wrapper does so on every call whose
positional argument count does not exceed the declared positional parameter
count (and trivially when `__debug__` is false and the decorator is the
identity). -/
theorem c5_decorators_transparent (f : PyFunc) (args : List Val)
    (kwargs : List (String × Val)) (etl : ExecutionTimeLogger) (level : Nat)
    (t1 t2 : Rat) :
    (args.length ≤ f.argnames.length →
      ((log_arguments true f).call args kwargs).outcome = f.body args kwargs) ∧
    ((log_arguments false f).call args kwargs).outcome = f.body args kwargs ∧
    (etl.call level f t1 t2 args kwargs).outcome = f.body args kwargs := by
  refine ⟨?_, rfl, ?_⟩
  · intro h
    obtain ⟨d2, hd2⟩ :=
      overlay_positional_ok f.argnames args (default_args_state f) 0 (by omega)
    have hcall : (log_arguments true f).call args kwargs =
        log_arguments_wrapper f args kwargs := rfl
    rw [hcall, log_arguments_wrapper, reconstruct_arguments, hd2]
  · cases hb : f.body args kwargs <;> simp [ExecutionTimeLogger.call, hb]

/-- C5 witness: instantiates the amended transparency theorem at
`greet("Sam")` for the `log_arguments` conjunct, and — because the timing
wrapper's transparency carries no length hypothesis — at the
excess-positional call `g(1, 2)` for the `ExecutionTimeLogger` conjunct. -/
theorem c5_decorators_transparent_witness :
    ([Val.str "Sam"] : List Val).length ≤ greetFunc.argnames.length ∧
    ((log_arguments true greetFunc).call [Val.str "Sam"] []).outcome =
      greetFunc.body [Val.str "Sam"] [] ∧
    ((ExecutionTimeLogger.init DEFAULT_PRE_MSG DEFAULT_POST_MSG).call
        loggingDEBUG gStar 0 1 [Val.int 1, Val.int 2] []).outcome =
      gStar.body [Val.int 1, Val.int 2] [] :=
  ⟨by decide,
   (c5_decorators_transparent greetFunc [Val.str "Sam"] []
      (ExecutionTimeLogger.init DEFAULT_PRE_MSG DEFAULT_POST_MSG) loggingDEBUG
      0 1).1 (by decide),
   (c5_decorators_transparent gStar [Val.int 1, Val.int 2] []
      (ExecutionTimeLogger.init DEFAULT_PRE_MSG DEFAULT_POST_MSG) loggingDEBUG
      0 1).2.2⟩

/-- C6: a call of an `ExecutionTimeLogger`-wrapped function that returns
normally emits exactly two records — the start record first, then the finish
record carrying the elapsed duration `t2 - t1`, which is non-negative
whenever the second clock reading is not earlier than the first; if the
wrapped function raises, only the start record has been emitted. -/
theorem c6_timing_bracket (etl : ExecutionTimeLogger) (level : Nat)
    (f : PyFunc) (t1 t2 : Rat) (args : List Val)
    (kwargs : List (String × Val)) :
    (∀ v, f.body args kwargs = .ok v →
      (etl.call level f t1 t2 args kwargs).logs =
        [log_on_behalf_of_func f level etl.pre_msg (.dictFN f.name),
         log_on_behalf_of_func f level etl.post_msg
           (.dictFNSecs f.name (t2 - t1))] ∧
      (t1 ≤ t2 → 0 ≤ t2 - t1)) ∧
    (∀ e, f.body args kwargs = .error e →
      (etl.call level f t1 t2 args kwargs).logs =
        [log_on_behalf_of_func f level etl.pre_msg (.dictFN f.name)]) := by
  constructor
  · intro v hv
    refine ⟨by simp [ExecutionTimeLogger.call, hv], fun hle => by linarith⟩
  · intro e he
    simp [ExecutionTimeLogger.call, he]

/-- C6 witness: the default-template timing decorator around a trivially
returning function, with clock readings 0 and 1. -/
theorem c6_timing_bracket_witness :
    ((ExecutionTimeLogger.init DEFAULT_PRE_MSG DEFAULT_POST_MSG).call
        loggingDEBUG sleeperFunc 0 1 [] []).logs =
      [log_on_behalf_of_func sleeperFunc loggingDEBUG
         (ExecutionTimeLogger.init DEFAULT_PRE_MSG DEFAULT_POST_MSG).pre_msg
         (.dictFN sleeperFunc.name),
       log_on_behalf_of_func sleeperFunc loggingDEBUG
         (ExecutionTimeLogger.init DEFAULT_PRE_MSG DEFAULT_POST_MSG).post_msg
         (.dictFNSecs sleeperFunc.name (1 - 0))] ∧
    (0 : Rat) ≤ 1 - 0 := by
  have h := (c6_timing_bracket
    (ExecutionTimeLogger.init DEFAULT_PRE_MSG DEFAULT_POST_MSG) loggingDEBUG
    sleeperFunc 0 1 [] []).1 Val.none rfl
  exact ⟨h.1, h.2 (by norm_num)⟩

/-- C7: every record built by `log_on_behalf_of_func` carries the wrapped
function's module as the logger-name field and the wrapped function's
declared name as the function-name field, whatever the level, message and
substitution values — so whichever wrapper calls it (including nested
decorators), the record reports the wrapped function, never the wrapper. -/
theorem c7_record_reports_wrapped_func (func : PyFunc) (level : Nat)
    (message : String) (message_args : MsgArgs) :
    (log_on_behalf_of_func func level message message_args).name =
      func.module ∧
    (log_on_behalf_of_func func level message message_args).funcName =
      func.name :=
  ⟨rfl, rfl⟩

/-- C8: with `__debug__` false (the optimized mode), `log_arguments` returns
the very function object it was given, every call behaves exactly like the
original function, and no log record is emitted. -/
theorem c8_noop_when_optimized (f : PyFunc) (args : List Val)
    (kwargs : List (String × Val)) :
    log_arguments false f = Decorated.original f ∧
    ((log_arguments false f).call args kwargs).logs = [] ∧
    ((log_arguments false f).call args kwargs).outcome = f.body args kwargs :=
  ⟨rfl, rfl, rfl⟩

/-- C9: `ordered_dict` fails fast with `ValueError "odd number of arguments"`
when the trailing argument count is odd, and on an even count returns the
given key/value pairs in the order supplied (stated for pairwise-distinct
keys, where "containing the pairs in order" is exact). -/
theorem c9_ordered_dict_pairs (k v : Val) (args : List Val) :
    (args.length % 2 = 1 →
      ordered_dict k v args = .error (.valueError ODD_ARGS_MSG)) ∧
    (args.length % 2 = 0 → (((k, v) :: pair_up args).map Prod.fst).Nodup →
      ordered_dict k v args = .ok ((k, v) :: pair_up args)) := by
  constructor
  · intro hodd
    simp [ordered_dict, hodd]
  · intro heven hnodup
    rw [ordered_dict, if_neg (by omega)]
    have h0 : dictSet ([] : List (Val × Val)) k v = [(k, v)] := rfl
    rw [h0, dictUpdate_fresh (pair_up args) [(k, v)] (by simpa using hnodup)]
    rfl

/-- C9 witness: `ordered_dict(2, "b", 1)` raises the descriptive
`ValueError`; `ordered_dict(2, "b", 1, "a")` returns the two pairs in
order. -/
theorem c9_ordered_dict_pairs_witness :
    ([Val.int 1] : List Val).length % 2 = 1 ∧
    ordered_dict (Val.int 2) (Val.str "b") [Val.int 1] =
      .error (.valueError ODD_ARGS_MSG) ∧
    ([Val.int 1, Val.str "a"] : List Val).length % 2 = 0 ∧
    ordered_dict (Val.int 2) (Val.str "b") [Val.int 1, Val.str "a"] =
      .ok [(Val.int 2, Val.str "b"), (Val.int 1, Val.str "a")] :=
  ⟨by decide,
   (c9_ordered_dict_pairs (Val.int 2) (Val.str "b") [Val.int 1]).1 (by decide),
   by decide,
   (c9_ordered_dict_pairs (Val.int 2) (Val.str "b")
      [Val.int 1, Val.str "a"]).2 (by decide) (by decide)⟩

/-- C10: whenever a call supplies more positional arguments than the wrapped
function's declared positional parameter count, the `log_arguments` wrapper
raises `IndexError` while indexing the declared-name tuple: no record is
logged and the wrapped function is never invoked (the result does not
depend on the function body at all). -/
theorem c10_excess_positionals_index_error (f : PyFunc) (args : List Val)
    (kwargs : List (String × Val)) (h : f.argnames.length < args.length) :
    (log_arguments true f).call args kwargs =
      { logs := [], outcome := .error .indexError } := by
  have hov := overlay_positional_overflow f.argnames args (default_args_state f)
    0 (by omega) (by omega)
  have hcall : (log_arguments true f).call args kwargs =
      log_arguments_wrapper f args kwargs := rfl
  rw [hcall]
  simp [log_arguments_wrapper, reconstruct_arguments, hov]

/-- C10 witness: `def g(a, *rest)` called through the wrapper as `g(1, 2)`. -/
theorem c10_excess_positionals_index_error_witness :
    gStar.argnames.length < ([Val.int 1, Val.int 2] : List Val).length ∧
    (log_arguments true gStar).call [Val.int 1, Val.int 2] [] =
      { logs := [], outcome := .error .indexError } :=
  ⟨by decide,
   c10_excess_positionals_index_error gStar [Val.int 1, Val.int 2] []
     (by decide)⟩

end Recipes
